import Mathlib

/-!
Shallow embedding of `autodict.py` (class `Autodict`): a persistent dict that
mirrors its content to a single file and writes back only when content changed.

Modelling conventions:
* A Python object is a `PyObj`: `oid` is its identity (the `is` operator
  compares the whole record, and two distinct objects differ in `oid`),
  `cls` is its runtime class (`type(x)`), and `val` is a code for its
  equality class (Python `==`/`!=` on the value kinds the code compares
  is modelled as equality of `val`; distinct codes stand for unequal values).
* Classes are `PyClass` records carrying the class name and the names of all
  proper ancestor classes, so `isinstance` (which accepts subclasses) and
  `type(x) is T` (exact class) are both expressible.
* The snapshot `self.data` is an association list with dict semantics
  (`dlookup`/`dinsert`/`derase`/`dupdate`).
* The filesystem is a map from path strings to byte lists inside `World`;
  an open handle (`FileHandle`) carries the live content, written back on
  close.  `World` also carries allocation counters for fresh object and
  handle identities.
* Exceptions are modelled with `Except`; an error carries the state at the
  point of raising, since a Python exception propagates while keeping all
  mutations made before the raise.
* The concrete serializers (pickle/json) and the text-to-type conversion are
  opaque capabilities per the spec; they are passed in as function
  parameters (`encode`, `decode`, `CastFn`).
-/

namespace Autodict

/-- Name of the Python class `str`. -/
def strS : String := "str"

/-- A Python class: its name and the names of its proper ancestors. -/
structure PyClass where
  name : String
  bases : List String
deriving DecidableEq

/-- A Python object: identity, runtime class, and value (equality-class code). -/
structure PyObj where
  oid : Nat
  cls : PyClass
  val : Nat
deriving DecidableEq

/-- Python `!=` on values the code compares: inequality of the value codes. -/
def pyNe (a b : PyObj) : Bool := a.val != b.val

/-- Python `isinstance(v, tys)`: the runtime class of `v` is one of the named
classes or a subclass of one of them. -/
def isinstanceB (v : PyObj) (tys : List String) : Bool :=
  tys.any (fun t => v.cls.name == t || v.cls.bases.contains t)

/-- The tuple `IMMUTABLES = (int, str, float, bool, tuple, bytes, complex, frozenset, Decimal)`. -/
def IMMUTABLES : List String :=
  ["int", "str", "float", "bool", "tuple", "bytes", "complex", "frozenset", "Decimal"]

/-- The tuple `MUTABLES_WITH_EQ = (list, set, bytearray, dict)`. -/
def MUTABLES_WITH_EQ : List String :=
  ["list", "set", "bytearray", "dict"]

/-- Keys of the snapshot (hashable identifiers; strings in the model). -/
abbrev Key := String

/-- The snapshot `self.data`: an association list with dict semantics. -/
abbrev Snap := List (Key × PyObj)

/-- Dict lookup `d[key]` returning `none` when the key is absent. -/
def dlookup : Snap → Key → Option PyObj
  | [], _ => none
  | (k, v) :: rest, key => if k = key then some v else dlookup rest key

/-- Dict assignment `d[key] = val`: replace in place, or append when the key is new. -/
def dinsert : Snap → Key → PyObj → Snap
  | [], key, val => [(key, val)]
  | (k, v) :: rest, key, val =>
      if k = key then (k, val) :: rest else (k, v) :: dinsert rest key val

/-- Dict deletion `del d[key]`: remove the entry for `key` (keys are unique). -/
def derase : Snap → Key → Snap
  | [], _ => []
  | (k, v) :: rest, key => if k = key then rest else (k, v) :: derase rest key

/-- Dict overlay `d.update(e)`: overlay every entry of `e` onto `d`. -/
def dupdate (d e : Snap) : Snap :=
  e.foldl (fun acc kv => dinsert acc kv.1 kv.2) d

/-- The `FileFormat` enum of the source.  `other` stands for a format identifier
outside the registered enum members: `default_file_format` is a dynamically
assignable attribute and `_openflags` is an open registry (the source says
"Add others also to _openflags"), so unregistered identifiers are part of
the state space the guard at the file setter checks for. -/
inductive FileFormat
  | pickle_human
  | pickle_binary
  | json
  | json_pretty
  | other (name : String)
deriving DecidableEq

/-- The `_openflags` open-mode registry.  All four enum members are registered;
anything else has no registered open-mode. -/
def openflags : FileFormat → Option String
  | .pickle_binary => some ("ab+")
  | .pickle_human => some ("ab+")
  | .json => some ("a+")
  | .json_pretty => some ("a+")
  | .other _ => none

/-- A format identifier with a registered open-mode (one of the four members). -/
def registeredFormat (f : FileFormat) : Bool := (openflags f).isSome

/-- Python exception categories raised by the code.  `typeError` is the
"File mode not found" configuration failure of the file setter;
`decodeError` stands for the unpickling/JSON decode errors propagated by
`load`; `castError` is a failure inside `_cast`. -/
inductive PyError
  | typeError (msg : String)
  | ioError (msg : String)
  | valueError
  | decodeError
  | castError
  | keyError
  | attributeError
deriving DecidableEq

/-- A `pathlib.Path` object: identity plus the path string it denotes
(`Path.__eq__` compares the path value only). -/
structure PathObj where
  oid : Nat
  s : String
deriving DecidableEq

/-- Python `==` between the current `_file` and a candidate (both optional):
`None == None` is true, `Path == Path` compares the path strings, and a
`Path` never equals `None`. -/
def pathValEq : Option PathObj → Option PathObj → Bool
  | none, none => true
  | some a, some b => a.s == b.s
  | _, _ => false

/-- The open handle `self._fhandle`: identity, bound path, current file
content, and a counter of completed truncate-rewrite-flush cycles. -/
structure FileHandle where
  hid : Nat
  path : String
  content : List Nat
  writes : Nat
deriving DecidableEq

/-- The world outside one store: the filesystem (path to bytes; an absent
path reads as empty, since the open modes create missing files), the home
directory for `~` expansion, and allocation counters for fresh identities. -/
structure World where
  fs : List (String × List Nat)
  home : String
  nextOid : Nat
  nextHid : Nat
deriving DecidableEq

/-- Read a path's bytes from the filesystem (missing file: empty). -/
def fsRead : List (String × List Nat) → String → List Nat
  | [], _ => []
  | (p, c) :: rest, q => if p == q then c else fsRead rest q

/-- Write a path's bytes into the filesystem. -/
def fsWrite : List (String × List Nat) → String → List Nat → List (String × List Nat)
  | [], q, c => [(q, c)]
  | (p, c0) :: rest, q, c => if p == q then (p, c) :: rest else (p, c0) :: fsWrite rest q c

/-- Python `Path(s).expanduser()`: expand a leading `~` to the home directory
(user-name forms such as `~user` are out of scope of the claims and treated
like the bare marker). -/
def expandUser (home s : String) : String :=
  match s.data with
  | c :: rest => if c = '~' then home ++ String.mk rest else s
  | [] => s

/-- The per-instance state of one `Autodict`: the snapshot, the dirty flag
`changed`, the policy flags, the instance defaults, the effective
`default_file_format`, and the file binding (`_file`, `_fhandle`). -/
structure AutodictState where
  data : Snap
  changed : Bool
  track_changes : Bool
  auto_cast : Bool
  include_defaults : Bool
  expand_home : Bool
  auto_mkdir : Bool
  instancedefaults : Snap
  default_file_format : FileFormat
  file : Option PathObj
  fhandle : Option FileHandle
deriving DecidableEq

/-- Message of the file setter's configuration failure. -/
def msgFileMode : String := "File mode not found"

/-- Message of `save` with no bound file. -/
def msgNoFile : String := "No file location specified for save."

/-- The `file` property setter (`autodict.py` lines 146-183).  A truthy new
path is wrapped into a fresh `Path` object (with home expansion when the
policy asks for it); if that compares equal (`==`, value equality) to the
current binding the setter returns unchanged.  Otherwise the open handle is
closed (its content synced back to the filesystem), and a truthy new path is
opened after checking the format has a registered open-mode, raising
`TypeError` otherwise.  `auto_mkdir` touches only directories, which the
filesystem model does not track.  A falsy input (`None`; the model collapses
the empty string, also falsy, into `none`) leaves the store file-less. -/
def set_file (w : World) (st : AutodictState) (newfileRaw : Option String) :
    Except (PyError × World × AutodictState) (World × AutodictState) :=
  let truthy : Bool := match newfileRaw with | none => false | some s => s != ""
  let s0 : String := match newfileRaw with | some s => s | none => ""
  let newfile : Option PathObj :=
    if truthy then
      some ⟨w.nextOid, if st.expand_home then expandUser w.home s0 else s0⟩
    else none
  let w1 := if truthy then { w with nextOid := w.nextOid + 1 } else w
  if pathValEq st.file newfile then
    -- No change
    .ok (w1, st)
  else
    -- Close current open handle
    let closed : World × AutodictState :=
      match st.fhandle with
      | some h => ({ w1 with fs := fsWrite w1.fs h.path h.content }, { st with fhandle := none })
      | none => (w1, st)
    match newfile with
    | some p =>
      match openflags st.default_file_format with
      | none => .error (.typeError msgFileMode, closed.1, closed.2)
      | some _ =>
        let h : FileHandle := ⟨closed.1.nextHid, p.s, fsRead closed.1.fs p.s, 0⟩
        .ok ({ closed.1 with nextHid := closed.1.nextHid + 1 },
             { closed.2 with file := some p, fhandle := some h })
    | none =>
      .ok (closed.1, { closed.2 with file := none })

/-- The `has_mutables` property (lines 185-195): scans the snapshot values and returns
true on the first value that is not an `isinstance` of the `IMMUTABLES`. -/
def has_mutables (d : Snap) : Bool :=
  d.any (fun kv => !(isinstanceB kv.2 IMMUTABLES))

/-- Spec-side reading of `hasMutables` ("any snapshot value's exact type is
outside the immutable-comparable set"): exact class name membership, no
subclass relation. -/
def hasMutablesExactSpec (d : Snap) : Bool :=
  d.any (fun kv => !(IMMUTABLES.contains kv.2.cls.name))

/-- The injectable text-to-type conversion behind `_cast(value, totype)`:
given the target class name and the text object, return the converted object
or `none` when the conversion raises. -/
abbrev CastFn := String → PyObj → Option PyObj

/-- Tail of `__setitem__` (lines 239-251): the second auto-cast site (cast
when not already done by the tracking block, the incoming value is text and
the key holds a non-text value), then the unconditional slot update
`self.data[key] = value`.  The returned boolean records that the slot update
ran. -/
def setitemFinish (castFn : CastFn) (st : AutodictState) (key : Key) (value : PyObj)
    (done_cast : Bool) : Except (PyError × AutodictState) (AutodictState × Bool) :=
  if st.auto_cast && !done_cast && (value.cls.name == strS) then
    match dlookup st.data key with
    | some existing_value =>
      if existing_value.cls.name != strS then
        match castFn existing_value.cls.name value with
        | none => .error (.castError, st)
        | some value2 => .ok ({ st with data := dinsert st.data key value2 }, true)
      else
        .ok ({ st with data := dinsert st.data key value }, true)
    | none => .ok ({ st with data := dinsert st.data key value }, true)
  else
    .ok ({ st with data := dinsert st.data key value }, true)

/-- The method `__setitem__` (lines 205-251).  With tracking on: a new key marks dirty;
when still clean, the existing value is fetched, an applicable auto-cast
converts the incoming text first, assignment of the very same object returns
early without touching the slot, values of comparable types set the dirty
flag to the value inequality, and any other type marks dirty
unconditionally.  The tail (`setitemFinish`) performs the remaining cast
site and the slot update. -/
def setitem (castFn : CastFn) (st : AutodictState) (key : Key) (value : PyObj) :
    Except (PyError × AutodictState) (AutodictState × Bool) :=
  if st.track_changes then
    match dlookup st.data key with
    | none =>
      -- Key-Value is new
      setitemFinish castFn { st with changed := true } key value false
    | some existing_value =>
      if st.changed then
        setitemFinish castFn st key value false
      else
        if st.auto_cast && (existing_value.cls.name != strS) && (value.cls.name == strS) then
          match castFn existing_value.cls.name value with
          | none => .error (.castError, st)
          | some value2 =>
            -- done_cast = True
            if existing_value = value2 then
              -- Assigned same object.  Absolutely not a change.
              .ok (st, false)
            else if isinstanceB value2 (IMMUTABLES ++ MUTABLES_WITH_EQ) then
              setitemFinish castFn { st with changed := pyNe existing_value value2 } key value2 true
            else
              setitemFinish castFn { st with changed := true } key value2 true
        else
          if existing_value = value then
            .ok (st, false)
          else if isinstanceB value (IMMUTABLES ++ MUTABLES_WITH_EQ) then
            setitemFinish castFn { st with changed := pyNe existing_value value } key value false
          else
            setitemFinish castFn { st with changed := true } key value false
  else
    setitemFinish castFn st key value false

/-- The method `__delitem__` (lines 200-203): delete the entry (KeyError when absent),
then mark dirty when tracking is on. -/
def delitem (st : AutodictState) (key : Key) :
    Except (PyError × AutodictState) AutodictState :=
  match dlookup st.data key with
  | none => .error (.keyError, st)
  | some _ =>
    let st1 := { st with data := derase st.data key }
    if st1.track_changes then .ok { st1 with changed := true } else .ok st1

/-- Head of `load`/`save`: `if file: self.file = pathlib.Path(file)` —
rebind through the file setter only when the argument is truthy. -/
def maybeRebind (w : World) (st : AutodictState) (fileArg : Option String) :
    Except (PyError × World × AutodictState) (World × AutodictState) :=
  match fileArg with
  | some s => if s != "" then set_file w st (some s) else .ok (w, st)
  | none => .ok (w, st)

/-- The method `load` (lines 288-319): optional rebind; clear the snapshot; compute
file-emptiness by seeking to the end (no bound file counts as empty); seed
from the instance defaults when `include_defaults` or no file is bound or
the file is empty; when a file is bound and non-empty, decode its full
content (the pickle/json deserializers are the opaque `decode` capability;
a failure raises the decode error, and a format outside the four enum
members raises `ValueError`); finally clear the dirty flag.  Accessing the
handle of a bound file that has none raises `AttributeError`
(`None.seek`). -/
def load (decode : FileFormat → List Nat → Option Snap) (w : World) (st : AutodictState)
    (fileArg : Option String) :
    Except (PyError × World × AutodictState) (World × AutodictState) :=
  match maybeRebind w st fileArg with
  | .error e => .error e
  | .ok (w1, st1) =>
    let st2 := { st1 with data := [] }
    match st2.file with
    | none =>
      -- fileempty = True; include_defaults or self.file is None or fileempty holds
      let st3 := { st2 with data := dupdate [] st2.instancedefaults }
      .ok (w1, { st3 with changed := false })
    | some _ =>
      match st2.fhandle with
      | none => .error (.attributeError, w1, st2)
      | some h =>
        let fileempty := h.content.isEmpty
        let st3 :=
          if st2.include_defaults || fileempty then
            { st2 with data := dupdate [] st2.instancedefaults }
          else st2
        if fileempty then
          .ok (w1, { st3 with changed := false })
        else
          if st3.default_file_format == .pickle_human
              || st3.default_file_format == .pickle_binary
              || st3.default_file_format == .json
              || st3.default_file_format == .json_pretty then
            match decode st3.default_file_format h.content with
            | none => .error (.decodeError, w1, st3)
            | some m => .ok (w1, { st3 with data := dupdate st3.data m, changed := false })
          else
            .error (.valueError, w1, st3)

/-- The method `save` (lines 321-361): optional rebind; `IOError` when no file is
bound; write exactly when `force` or tracking is disabled or (tracking and
dirty); a write seeks to the start, truncates, encodes the full snapshot
through the bound format's encoder (the four per-format dump calls,
including the registry-restoring safe dump used during interpreter
shutdown, are the opaque `encode` capability; a format outside the four
enum members raises `ValueError` after the truncation), flushes, bumps the
handle's write counter and clears the dirty flag.  The returned boolean
records whether a filesystem write was performed. -/
def save (encode : FileFormat → Snap → List Nat) (w : World) (st : AutodictState)
    (fileArg : Option String) (force : Bool) :
    Except (PyError × World × AutodictState) (World × AutodictState × Bool) :=
  match maybeRebind w st fileArg with
  | .error e => .error e
  | .ok (w1, st1) =>
    match st1.file with
    | none => .error (.ioError msgNoFile, w1, st1)
    | some _ =>
      if force || !st1.track_changes || (st1.track_changes && st1.changed) then
        match st1.fhandle with
        | none => .error (.attributeError, w1, st1)
        | some h =>
          -- Goto start of file and truncate for fresh write
          let h1 := { h with content := [] }
          let st2 := { st1 with fhandle := some h1 }
          match st2.default_file_format with
          | .other _ => .error (.valueError, w1, st2)
          | f =>
            let h2 := { h1 with content := encode f st2.data, writes := h1.writes + 1 }
            .ok (w1, { st2 with fhandle := some h2, changed := false }, true)
      else
        .ok (w1, st1, false)

/-! Concrete fixtures used by witnesses and counterexamples. -/

/-- Name of the Python class `int`. -/
def intS : String := "int"

/-- The Python class `int`. -/
def clsInt : PyClass := ⟨intS, ["object"]⟩

/-- The Python class `str`. -/
def clsStr : PyClass := ⟨strS, ["object"]⟩

/-- A strict subclass of `int` (`class MyInt(int): pass`). -/
def clsMyInt : PyClass := ⟨"MyInt", [intS, "object"]⟩

/-- The Python int `1000000` (large enough that CPython does not intern it). -/
def intM : PyObj := ⟨1, clsInt, 1000000⟩

/-- The Python str `"1000000"` (a different equality class than the int). -/
def strM : PyObj := ⟨2, clsStr, 2000000⟩

/-- The result of `int("1000000")`: a fresh object, equal in value to `intM`. -/
def intM2 : PyObj := ⟨3, clsInt, 1000000⟩

/-- An instance of the `int` subclass with value 5. -/
def myInt5 : PyObj := ⟨4, clsMyInt, 5⟩

/-- The Python int `7`. -/
def int7 : PyObj := ⟨5, clsInt, 7⟩

/-- A conversion callback that always raises. -/
def castNone : CastFn := fun _ _ => none

/-- A conversion callback behaving like `int(...)` on the fixture `strM`. -/
def castParseIntM : CastFn := fun c v => if c == intS && v == strM then some intM2 else none

def keyN : Key := "n"
def keyK : Key := "k"
def keyX : Key := "x"
def keyA : Key := "a"
def yamlS : String := "yaml"
def pathTmpX : String := "/tmp/x"
def homeS : String := "/home/user"

/-- A base store state with the class-default policy flags
(`track_changes` on, `auto_cast` off, `include_defaults` on), no bound
file and an empty snapshot. -/
def st0 : AutodictState :=
  { data := [], changed := false, track_changes := true, auto_cast := false,
    include_defaults := true, expand_home := true, auto_mkdir := true,
    instancedefaults := [], default_file_format := .pickle_binary,
    file := none, fhandle := none }

/-! Helper lemmas shared by several claims. -/

/-- The tail of `__setitem__` performs the plain slot update whenever its
cast site does not fire or finds a text existing value: auto-cast off, cast
already done, incoming value not text, key absent, or existing value text. -/
theorem setitemFinish_writes (castFn : CastFn) (st : AutodictState) (k : Key) (v : PyObj)
    (dc : Bool)
    (h : st.auto_cast = false ∨ dc = true ∨ v.cls.name ≠ strS
         ∨ dlookup st.data k = none
         ∨ ∃ e, dlookup st.data k = some e ∧ e.cls.name = strS) :
    setitemFinish castFn st k v dc = .ok ({ st with data := dinsert st.data k v }, true) := by
  rcases h with h | h | h | h | ⟨e, he, hstr⟩
  · simp [setitemFinish, h]
  · simp [setitemFinish, h]
  · simp [setitemFinish, h]
  · unfold setitemFinish
    split
    · rw [h]
    · rfl
  · unfold setitemFinish
    split
    · rw [he]
      simp [hstr]
    · rfl

/-- In every outcome of the tail of `__setitem__`, the dirty flag is the one
it was handed. -/
theorem setitemFinish_changed_ok (castFn : CastFn) (st : AutodictState) (k : Key) (v : PyObj)
    (dc : Bool) (st1 : AutodictState) (b : Bool)
    (h : setitemFinish castFn st k v dc = .ok (st1, b)) : st1.changed = st.changed := by
  unfold setitemFinish at h
  split at h
  · split at h
    · split at h
      · split at h
        · exact absurd h (by simp)
        · injection h with h1
          injection h1 with h2 _
          rw [← h2]
      · injection h with h1
        injection h1 with h2 _
        rw [← h2]
    · injection h with h1
      injection h1 with h2 _
      rw [← h2]
  · injection h with h1
    injection h1 with h2 _
    rw [← h2]

/-- The error outcome of the tail of `__setitem__` keeps the state it was
handed (the cast raises before any mutation of that state). -/
theorem setitemFinish_changed_err (castFn : CastFn) (st : AutodictState) (k : Key) (v : PyObj)
    (dc : Bool) (e : PyError) (st1 : AutodictState)
    (h : setitemFinish castFn st k v dc = .error (e, st1)) : st1 = st := by
  unfold setitemFinish at h
  split at h
  · split at h
    · split at h
      · split at h
        · injection h with h1
          injection h1 with _ h2
          rw [← h2]
        · exact absurd h (by simp)
      · exact absurd h (by simp)
    · exact absurd h (by simp)
  · exact absurd h (by simp)

/-! Claim theorems. -/

/-- C8 counterexample: a snapshot holding one value whose exact type (the
`int` subclass `MyInt`) lies outside the immutable-comparable set, so the
claim's exact-type reading demands `hasMutables = true`; the code tests with
`isinstance`, accepts the subclass, and returns `false`. -/
theorem has_mutables_exact_type_cex :
    has_mutables [(keyX, myInt5)] = false ∧
    hasMutablesExactSpec [(keyX, myInt5)] = true := by
  exact ⟨rfl, rfl⟩

/-- C8 (amended): `has_mutables` returns true iff at least one snapshot
value is not an instance — in the `isinstance` sense, subclasses included —
of any type in the immutable-comparable set. -/
theorem has_mutables_iff (d : Snap) :
    has_mutables d = true ↔ ∃ kv ∈ d, isinstanceB kv.2 IMMUTABLES = false := by
  simp [has_mutables, List.any_eq_true]

/-- C5 counterexample: with change tracking disabled, inserting a fresh key
leaves the dirty flag false (the tracking block, including the new-key
marking, is skipped entirely). -/
theorem setitem_new_key_marks_dirty_cex :
    setitem castNone { st0 with track_changes := false } keyK intM =
      .ok ({ st0 with track_changes := false, data := [(keyK, intM)] }, true) ∧
    ({ st0 with track_changes := false, data := [(keyK, intM)] } : AutodictState).changed
      = false := by
  exact ⟨rfl, rfl⟩

/-- C5 (amended): when change tracking is enabled, setting a key absent from
the snapshot marks the store dirty and writes the value into the snapshot
(the value is written in either tracking mode; only the dirty marking needs
tracking to be enabled). -/
theorem setitem_new_key_marks_dirty (castFn : CastFn) (st : AutodictState) (k : Key) (v : PyObj)
    (htrack : st.track_changes = true) (habs : dlookup st.data k = none) :
    setitem castFn st k v =
      .ok ({ st with changed := true, data := dinsert st.data k v }, true) := by
  unfold setitem
  rw [htrack, if_pos rfl, habs]
  exact setitemFinish_writes castFn _ k v false (Or.inr (Or.inr (Or.inr (Or.inl habs))))

/-- C5 witness. -/
theorem setitem_new_key_marks_dirty_witness :
    setitem castNone st0 keyK intM =
      .ok ({ st0 with changed := true, data := [(keyK, intM)] }, true) :=
  setitem_new_key_marks_dirty castNone st0 keyK intM rfl rfl

/-- C7: with auto-cast enabled, a text value assigned over a non-text
existing value whose conversion raises aborts `__setitem__` with the cast
error before the slot update: the state at the raise is exactly the
incoming state (snapshot and dirty flag untouched). -/
theorem setitem_cast_failure_aborts (castFn : CastFn) (st : AutodictState) (k : Key)
    (v1 v : PyObj)
    (hac : st.auto_cast = true) (hk : dlookup st.data k = some v1)
    (h1 : v1.cls.name ≠ strS) (h2 : v.cls.name = strS)
    (hc : castFn v1.cls.name v = none) :
    setitem castFn st k v = .error (.castError, st) := by
  have hb1 : (v1.cls.name != strS) = true := by simp [h1]
  have hb2 : (v.cls.name == strS) = true := by simp [h2]
  cases htc : st.track_changes <;> cases hch : st.changed <;>
    simp [setitem, setitemFinish, hk, hac, hb1, hb2, hc, htc, hch]

/-- C7 witness. -/
theorem setitem_cast_failure_aborts_witness :
    setitem castNone { st0 with auto_cast := true, data := [(keyN, intM)] } keyN strM =
      .error (.castError, { st0 with auto_cast := true, data := [(keyN, intM)] }) :=
  setitem_cast_failure_aborts castNone _ keyN intM strM rfl rfl (by decide) rfl rfl

/-- C3 counterexample: store with auto-cast enabled, tracking on, clean,
`n ↦ int 1000000`; assigning the str `"1000000"` (a distinct object of a
comparable type, unequal in value to the int).  The claim demands dirty
`= true` (since `v1 != v2`) and the slot updated to the str; the code first
casts the text to `int("1000000")`, compares and stores the cast result:
the dirty flag stays false and the slot holds the cast int, not the str. -/
theorem setitem_comparable_dirty_iff_ne_cex :
    pyNe intM strM = true ∧
    isinstanceB strM (IMMUTABLES ++ MUTABLES_WITH_EQ) = true ∧
    setitem castParseIntM { st0 with auto_cast := true, data := [(keyN, intM)] } keyN strM =
      .ok ({ st0 with auto_cast := true, data := [(keyN, intM2)] }, true) ∧
    ({ st0 with auto_cast := true, data := [(keyN, intM2)] } : AutodictState).changed = false ∧
    dlookup [(keyN, intM2)] keyN ≠ some strM := by
  refine ⟨rfl, rfl, rfl, rfl, by decide⟩

/-- C3 (amended): under the claim's conditions and additionally when no
auto-cast applies (auto-cast disabled, or the existing value is text, or the
incoming value is not text), assigning a distinct object of a comparable
type sets the dirty flag to exactly the value inequality and updates the
slot to the incoming value; when an auto-cast applies, the comparison and
the stored value use the cast result instead. -/
theorem setitem_comparable_dirty_iff_ne (castFn : CastFn) (st : AutodictState) (k : Key)
    (v1 v2 : PyObj)
    (htrack : st.track_changes = true) (hclean : st.changed = false)
    (hk : dlookup st.data k = some v1)
    (_hc1 : isinstanceB v1 (IMMUTABLES ++ MUTABLES_WITH_EQ) = true)
    (hc2 : isinstanceB v2 (IMMUTABLES ++ MUTABLES_WITH_EQ) = true)
    (hne : v1 ≠ v2)
    (hnc : st.auto_cast = false ∨ v1.cls.name = strS ∨ v2.cls.name ≠ strS) :
    setitem castFn st k v2 =
      .ok ({ st with changed := pyNe v1 v2, data := dinsert st.data k v2 }, true) := by
  have hcond : (st.auto_cast && (v1.cls.name != strS) && (v2.cls.name == strS)) = false := by
    rcases hnc with h | h | h <;> simp [h]
  have hfin : setitemFinish castFn { st with changed := pyNe v1 v2 } k v2 false =
      .ok ({ st with changed := pyNe v1 v2, data := dinsert st.data k v2 }, true) := by
    rcases hnc with h | h | h
    · exact setitemFinish_writes castFn _ k v2 false (Or.inl h)
    · exact setitemFinish_writes castFn _ k v2 false
        (Or.inr (Or.inr (Or.inr (Or.inr ⟨v1, hk, h⟩))))
    · exact setitemFinish_writes castFn _ k v2 false (Or.inr (Or.inr (Or.inl h)))
  unfold setitem
  rw [if_pos htrack]
  simp only [hk]
  rw [if_neg (by simp [hclean]), if_neg (by simp [hcond]), if_neg hne, if_pos hc2]
  exact hfin

/-- C3 witness. -/
theorem setitem_comparable_dirty_iff_ne_witness :
    setitem castNone { st0 with data := [(keyA, intM)] } keyA int7 =
      .ok ({ st0 with changed := true, data := [(keyA, int7)] }, true) := by
  have h := setitem_comparable_dirty_iff_ne castNone { st0 with data := [(keyA, intM)] }
    keyA intM int7 rfl rfl rfl rfl rfl (by decide) (Or.inl rfl)
  exact h

/-- C4: re-assigning the very same object already stored under a key leaves
the dirty flag exactly as it was in every configuration, and when tracking
is enabled on a clean store the call returns immediately: the state is
untouched and the slot update does not run. -/
theorem setitem_same_object_noop (castFn : CastFn) (st : AutodictState) (k : Key) (v : PyObj)
    (hk : dlookup st.data k = some v) :
    ∃ st1 wrote, setitem castFn st k v = .ok (st1, wrote) ∧
      st1.changed = st.changed ∧
      (st.track_changes = true → st.changed = false → st1 = st ∧ wrote = false) := by
  have hwrites : setitemFinish castFn st k v false =
      .ok ({ st with data := dinsert st.data k v }, true) := by
    by_cases hstr : v.cls.name = strS
    · exact setitemFinish_writes castFn st k v false
        (Or.inr (Or.inr (Or.inr (Or.inr ⟨v, hk, hstr⟩))))
    · exact setitemFinish_writes castFn st k v false (Or.inr (Or.inr (Or.inl hstr)))
  rcases Bool.eq_false_or_eq_true st.track_changes with htc | htc
  · rcases Bool.eq_false_or_eq_true st.changed with hch | hch
    · refine ⟨{ st with data := dinsert st.data k v }, true, ?_, rfl, ?_⟩
      · unfold setitem
        rw [if_pos htc]
        simp only [hk]
        rw [if_pos hch]
        exact hwrites
      · intro _ h
        rw [hch] at h
        exact absurd h (by simp)
    · -- tracking on, clean store: the identity fast path returns early
      refine ⟨st, false, ?_, rfl, fun _ _ => ⟨rfl, rfl⟩⟩
      have hcond : (st.auto_cast && (v.cls.name != strS) && (v.cls.name == strS)) = false := by
        cases hb : (v.cls.name == strS) <;> simp [bne, hb]
      unfold setitem
      rw [if_pos htc]
      simp only [hk]
      rw [if_neg (by simp [hch]), if_neg (by simp [hcond])]
      simp
  · refine ⟨{ st with data := dinsert st.data k v }, true, ?_, rfl, ?_⟩
    · unfold setitem
      rw [if_neg (by simp [htc])]
      exact hwrites
    · intro h
      rw [htc] at h
      exact absurd h (by simp)

/-- C4 witness. -/
theorem setitem_same_object_noop_witness :
    ∃ st1 wrote,
      setitem castNone { st0 with data := [(keyA, intM)] } keyA intM = .ok (st1, wrote) ∧
      st1.changed = ({ st0 with data := [(keyA, intM)] } : AutodictState).changed ∧
      (({ st0 with data := [(keyA, intM)] } : AutodictState).track_changes = true →
        ({ st0 with data := [(keyA, intM)] } : AutodictState).changed = false →
        st1 = { st0 with data := [(keyA, intM)] } ∧ wrote = false) :=
  setitem_same_object_noop castNone { st0 with data := [(keyA, intM)] } keyA intM rfl

/-- C9 counterexample: store bound to the path object `⟨oid 1, "/tmp/x"⟩`
with an open handle; assigning the string `"/tmp/x"` constructs a fresh
`Path` object (oid 5, distinct from the bound object) that is merely
structurally equal — and the setter still no-ops (same state: the handle is
not closed or reopened, the binding is untouched).  This refutes the
claim's assertion that the no-op test is pointer/reference equality. -/
theorem file_rebind_pointer_equality_cex :
    set_file { fs := [], home := homeS, nextOid := 5, nextHid := 1 }
        { st0 with file := some ⟨1, pathTmpX⟩, fhandle := some ⟨0, pathTmpX, [], 0⟩ }
        (some pathTmpX) =
      .ok ({ fs := [], home := homeS, nextOid := 6, nextHid := 1 },
           { st0 with file := some ⟨1, pathTmpX⟩, fhandle := some ⟨0, pathTmpX, [], 0⟩ }) ∧
    (5 : Nat) ≠ (1 : Nat) := by
  exact ⟨rfl, by decide⟩

/-- C9 (amended): assigning a path whose constructed `Path` value (after
optional home expansion) equals the currently bound path is a no-op — the
handle is not closed or reopened and the binding is unchanged; the equality
used is structural path equality, not reference equality (the setter always
wraps its input in a freshly constructed `Path`). -/
theorem file_rebind_equal_path_noop (w : World) (st : AutodictState) (s : String) (p : PathObj)
    (hs : s ≠ "") (hf : st.file = some p)
    (heq : (if st.expand_home then expandUser w.home s else s) = p.s) :
    set_file w st (some s) = .ok ({ w with nextOid := w.nextOid + 1 }, st) := by
  have hb : (s != "") = true := by simp [hs]
  unfold set_file
  simp [hb, hf, heq, pathValEq]

/-- C9 amended-claim witness. -/
theorem file_rebind_equal_path_noop_witness :
    set_file { fs := [], home := homeS, nextOid := 5, nextHid := 1 }
        { st0 with file := some ⟨1, pathTmpX⟩ } (some pathTmpX) =
      .ok ({ fs := [], home := homeS, nextOid := 6, nextHid := 1 },
           { st0 with file := some ⟨1, pathTmpX⟩ }) :=
  file_rebind_equal_path_noop { fs := [], home := homeS, nextOid := 5, nextHid := 1 }
    { st0 with file := some ⟨1, pathTmpX⟩ } pathTmpX ⟨1, pathTmpX⟩ (by decide) rfl rfl

/-- The exception a file-setter call raised, if any. -/
def resultError : Except (PyError × World × AutodictState) (World × AutodictState) →
    Option PyError
  | .error (e, _, _) => some e
  | .ok _ => none

/-- C6: binding a (different) file while the effective format identifier has
no registered open-mode fails with the configuration error (`TypeError`,
"File mode not found") — a category distinct from the io, decode and cast
errors. -/
theorem bind_unregistered_format_fails (w : World) (st : AutodictState) (s : String)
    (hs : s ≠ "")
    (hreg : openflags st.default_file_format = none)
    (hnew : pathValEq st.file
        (some ⟨w.nextOid, if st.expand_home then expandUser w.home s else s⟩) = false) :
    resultError (set_file w st (some s)) = some (.typeError msgFileMode) ∧
    (∀ m1 m2, PyError.typeError m1 ≠ PyError.ioError m2) ∧
    (∀ m1, PyError.typeError m1 ≠ PyError.decodeError) ∧
    (∀ m1, PyError.typeError m1 ≠ PyError.castError) := by
  refine ⟨?_, fun m1 m2 h => PyError.noConfusion h,
    fun m1 h => PyError.noConfusion h, fun m1 h => PyError.noConfusion h⟩
  have hb : (s != "") = true := by simp [hs]
  cases hfh : st.fhandle <;>
    simp [set_file, resultError, hb, hnew, hreg, hfh]

/-- C6 witness. -/
theorem bind_unregistered_format_fails_witness :
    resultError (set_file { fs := [], home := homeS, nextOid := 5, nextHid := 1 }
        { st0 with default_file_format := .other yamlS } (some pathTmpX)) =
      some (.typeError msgFileMode) ∧
    (∀ m1 m2, PyError.typeError m1 ≠ PyError.ioError m2) ∧
    (∀ m1, PyError.typeError m1 ≠ PyError.decodeError) ∧
    (∀ m1, PyError.typeError m1 ≠ PyError.castError) :=
  bind_unregistered_format_fails { fs := [], home := homeS, nextOid := 5, nextHid := 1 }
    { st0 with default_file_format := .other yamlS } pathTmpX (by decide) rfl rfl

/-- C2: `load()` (no rebind) clears the snapshot, seeds it from the instance
defaults exactly when the defaults-inclusion policy is on OR no file is
bound OR the bound file is empty, then overlays the decoded file content
when a file is bound and non-empty, and ends with the dirty flag false in
every branch.  Stated by cases: (1) no file bound; (2) bound but empty
file — both always seed and never overlay; (3) bound non-empty file —
seeds exactly when `include_defaults`, then overlays the decoded map. -/
theorem load_seeds_and_overlays (decode : FileFormat → List Nat → Option Snap)
    (w : World) (st : AutodictState) :
    (st.file = none →
      load decode w st none =
        .ok (w, { st with data := dupdate [] st.instancedefaults, changed := false })) ∧
    (∀ p h, st.file = some p → st.fhandle = some h → h.content = [] →
      load decode w st none =
        .ok (w, { st with data := dupdate [] st.instancedefaults, changed := false })) ∧
    (∀ p h m, st.file = some p → st.fhandle = some h → h.content ≠ [] →
      registeredFormat st.default_file_format = true →
      decode st.default_file_format h.content = some m →
      load decode w st none =
        .ok (w, { st with
          data := dupdate (if st.include_defaults then dupdate [] st.instancedefaults else []) m,
          changed := false })) := by
  refine ⟨?_, ?_, ?_⟩
  · intro hf
    simp [load, maybeRebind, hf]
  · intro p h hf hh hemp
    simp [load, maybeRebind, hf, hh, hemp]
  · intro p h m hf hh hne hreg hdec
    have hemp : h.content.isEmpty = false := by
      cases hc : h.content
      · exact absurd hc hne
      · rfl
    cases hfmt : st.default_file_format
    case other n =>
      rw [hfmt] at hreg
      simp [registeredFormat, openflags] at hreg
    all_goals
      rw [hfmt] at hdec
    all_goals
      rcases Bool.eq_false_or_eq_true st.include_defaults with hid | hid <;>
        simp [load, maybeRebind, hf, hh, hemp, hfmt, hid, hdec]

/-- C2 witness. -/
theorem load_seeds_and_overlays_witness :
    load (fun _ _ => none) { fs := [], home := homeS, nextOid := 0, nextHid := 0 }
        { st0 with instancedefaults := [(keyA, intM)] } none =
      .ok ({ fs := [], home := homeS, nextOid := 0, nextHid := 0 },
           { st0 with
              instancedefaults := [(keyA, intM)]
              data := [(keyA, intM)]
              changed := false }) :=
  (load_seeds_and_overlays (fun _ _ => none)
    { fs := [], home := homeS, nextOid := 0, nextHid := 0 }
    { st0 with instancedefaults := [(keyA, intM)] }).1 rfl

/-- When the write condition holds (tracking disabled or store dirty, with
`force = false`) and a file and handle are bound with a registered format,
`save` truncate-rewrites the full encoded snapshot, bumps the handle's write
counter and clears the dirty flag. -/
theorem save_writes (encode : FileFormat → Snap → List Nat) (w : World) (st : AutodictState)
    (p : PathObj) (h : FileHandle)
    (hf : st.file = some p) (hh : st.fhandle = some h)
    (hreg : registeredFormat st.default_file_format = true)
    (hcond : st.track_changes = false ∨ st.changed = true) :
    save encode w st none false =
      .ok (w, { st with
        fhandle := some { hid := h.hid
                          path := h.path
                          content := encode st.default_file_format st.data
                          writes := h.writes + 1 }
        changed := false }, true) := by
  have hcv : (false || !st.track_changes || (st.track_changes && st.changed)) = true := by
    rcases hcond with hc | hc <;> simp [hc]
  unfold save maybeRebind
  simp only [hf, hh]
  rw [if_pos hcv]
  cases hfmt : st.default_file_format
  case other n =>
    rw [hfmt] at hreg
    simp [registeredFormat, openflags] at hreg
  all_goals rfl

/-- When the write condition fails (`force = false`, tracking on, clean
store) and a file is bound, `save` is a silent no-op. -/
theorem save_noop (encode : FileFormat → Snap → List Nat) (w : World) (st : AutodictState)
    (p : PathObj) (hf : st.file = some p)
    (hcond : (false || !st.track_changes || (st.track_changes && st.changed)) = false) :
    save encode w st none false = .ok (w, st, false) := by
  unfold save maybeRebind
  simp only [hf]
  rw [if_neg (fun hcontra => by rw [hcond] at hcontra; exact Bool.noConfusion hcontra)]

/-- C1: `save(force := false)` on a store with a bound file and an open
handle (and a registered format, which a bound file implies) succeeds,
performs a filesystem write iff tracking is disabled or the dirty flag is
set, clears the dirty flag after a write, is a complete no-op (state and
world untouched, zero writes) when tracking is on and the store is clean,
and consequently — with tracking enabled — an immediately following second
`save` performs no write. -/
theorem save_write_iff_dirty_or_untracked (encode : FileFormat → Snap → List Nat)
    (w : World) (st : AutodictState) (p : PathObj) (h : FileHandle)
    (hf : st.file = some p) (hh : st.fhandle = some h)
    (hreg : registeredFormat st.default_file_format = true) :
    ∃ w1 st1 wrote, save encode w st none false = .ok (w1, st1, wrote) ∧
      w1 = w ∧
      (wrote = true ↔ (st.track_changes = false ∨ st.changed = true)) ∧
      (wrote = true → st1.changed = false) ∧
      (st.track_changes = true → st.changed = false → st1 = st ∧ wrote = false) ∧
      (st.track_changes = true → save encode w1 st1 none false = .ok (w1, st1, false)) := by
  rcases Bool.eq_false_or_eq_true st.track_changes with htc | htc
  · -- tracking on
    rcases Bool.eq_false_or_eq_true st.changed with hch | hch
    · -- dirty: write, then the second save finds a clean store
      refine ⟨w, _, true, save_writes encode w st p h hf hh hreg (Or.inr hch), rfl,
        by simp [hch], fun _ => rfl, ?_, ?_⟩
      · intro _ h2
        rw [hch] at h2
        exact absurd h2 (by simp)
      · intro _
        exact save_noop encode w _ p hf (by simp [htc])
    · -- clean: silent no-op, and so is the second save
      have hnoop : save encode w st none false = .ok (w, st, false) :=
        save_noop encode w st p hf (by simp [htc, hch])
      exact ⟨w, st, false, hnoop, rfl, by simp [htc, hch], fun _ => hch,
        fun _ _ => ⟨rfl, rfl⟩, fun _ => hnoop⟩
  · -- tracking disabled: always-write policy
    refine ⟨w, _, true, save_writes encode w st p h hf hh hreg (Or.inl htc), rfl,
      by simp [htc], fun _ => rfl, ?_, ?_⟩
    · intro h1
      rw [htc] at h1
      exact absurd h1 (by simp)
    · intro h1
      rw [htc] at h1
      exact absurd h1 (by simp)

/-- A world fixture for the save claims. -/
def w0 : World := { fs := [], home := homeS, nextOid := 0, nextHid := 1 }

/-- A handle fixture bound to `/tmp/x` with empty content. -/
def hW1 : FileHandle := ⟨0, pathTmpX, [], 0⟩

/-- A dirty store bound to `/tmp/x` (tracking on). -/
def stW1 : AutodictState := { st0 with changed := true, file := some ⟨1, pathTmpX⟩, fhandle := some hW1 }

/-- C1 witness. -/
theorem save_write_iff_dirty_or_untracked_witness :
    ∃ w1 st1 wrote,
      save (fun _ _ => [1]) w0 stW1 none false = .ok (w1, st1, wrote) ∧
      w1 = w0 ∧
      (wrote = true ↔ (stW1.track_changes = false ∨ stW1.changed = true)) ∧
      (wrote = true → st1.changed = false) ∧
      (stW1.track_changes = true → stW1.changed = false → st1 = stW1 ∧ wrote = false) ∧
      (stW1.track_changes = true →
        save (fun _ _ => [1]) w1 st1 none false = .ok (w1, st1, false)) :=
  save_write_iff_dirty_or_untracked (fun _ _ => [1]) w0 stW1 ⟨1, pathTmpX⟩ hW1 rfl rfl rfl

/-- C10: the dirty flag is monotone under mutations — `__setitem__` (in
every outcome, including a cast error) and `__delitem__` (in every outcome)
keep a true dirty flag true; and `save` only ever resets a true dirty flag
by actually performing a write. -/
theorem dirty_flag_monotone :
    (∀ (castFn : CastFn) (st : AutodictState) (k : Key) (v : PyObj),
      st.changed = true →
      (∀ st1 b, setitem castFn st k v = .ok (st1, b) → st1.changed = true) ∧
      (∀ e st1, setitem castFn st k v = .error (e, st1) → st1.changed = true)) ∧
    (∀ (st : AutodictState) (k : Key),
      st.changed = true →
      (∀ st1, delitem st k = .ok st1 → st1.changed = true) ∧
      (∀ e st1, delitem st k = .error (e, st1) → st1.changed = true)) ∧
    (∀ (encode : FileFormat → Snap → List Nat) (w : World) (st : AutodictState)
      (w1 : World) (st1 : AutodictState) (wrote : Bool),
      st.changed = true → save encode w st none false = .ok (w1, st1, wrote) →
      st1.changed = false → wrote = true) := by
  refine ⟨?_, ?_, ?_⟩
  · intro castFn st k v hch
    have hmain : ∀ st2, st2.changed = true →
        (∀ st1 b, setitemFinish castFn st2 k v false = .ok (st1, b) → st1.changed = true) ∧
        (∀ e st1, setitemFinish castFn st2 k v false = .error (e, st1) → st1.changed = true) := by
      intro st2 hch2
      constructor
      · intro st1 b hok
        rw [setitemFinish_changed_ok castFn st2 k v false st1 b hok]
        exact hch2
      · intro e st1 herr
        rw [setitemFinish_changed_err castFn st2 k v false e st1 herr]
        exact hch2
    rcases Bool.eq_false_or_eq_true st.track_changes with htc | htc
    · cases hk : dlookup st.data k
      · have heq : setitem castFn st k v =
            setitemFinish castFn { st with changed := true } k v false := by
          unfold setitem
          rw [if_pos htc]
          simp only [hk]
        rw [heq]
        exact hmain { st with changed := true } rfl
      · have heq : setitem castFn st k v = setitemFinish castFn st k v false := by
          unfold setitem
          rw [if_pos htc]
          simp only [hk]
          rw [if_pos hch]
        rw [heq]
        exact hmain st hch
    · have heq : setitem castFn st k v = setitemFinish castFn st k v false := by
        unfold setitem
        rw [if_neg (fun hcontra => by rw [htc] at hcontra; exact Bool.noConfusion hcontra)]
      rw [heq]
      exact hmain st hch
  · intro st k hch
    cases hk : dlookup st.data k
    · have heq : delitem st k = .error (.keyError, st) := by
        unfold delitem
        rw [hk]
      constructor
      · intro st1 hok
        rw [heq] at hok
        exact absurd hok (by simp)
      · intro e st1 herr
        rw [heq] at herr
        simp only [Except.error.injEq, Prod.mk.injEq] at herr
        exact herr.2 ▸ hch
    · rcases Bool.eq_false_or_eq_true st.track_changes with htc | htc
      · have heq : delitem st k = .ok { st with data := derase st.data k, changed := true } := by
          unfold delitem
          simp only [hk]
          rw [if_pos htc]
        constructor
        · intro st1 hok
          rw [heq] at hok
          simp only [Except.ok.injEq] at hok
          rw [← hok]
        · intro e st1 herr
          rw [heq] at herr
          exact absurd herr (by simp)
      · have heq : delitem st k = .ok { st with data := derase st.data k } := by
          unfold delitem
          simp only [hk]
          rw [if_neg (fun hcontra => by rw [htc] at hcontra; exact Bool.noConfusion hcontra)]
        constructor
        · intro st1 hok
          rw [heq] at hok
          simp only [Except.ok.injEq] at hok
          rw [← hok]
          exact hch
        · intro e st1 herr
          rw [heq] at herr
          exact absurd herr (by simp)
  · intro encode w st w1 st1 wrote hch hok _
    have hcv : (false || !st.track_changes || (st.track_changes && st.changed)) = true := by
      rcases Bool.eq_false_or_eq_true st.track_changes with ht | ht <;> simp [hch, ht]
    unfold save maybeRebind at hok
    cases hf : st.file
    · simp only [hf] at hok
      exact absurd hok (by simp)
    · simp only [hf] at hok
      rw [if_pos hcv] at hok
      cases hh : st.fhandle
      · simp only [hh] at hok
        exact absurd hok (by simp)
      · simp only [hh] at hok
        cases hfmt : st.default_file_format
        case other n =>
          simp only [hfmt] at hok
          exact absurd hok (by simp)
        all_goals
          simp only [hfmt, Except.ok.injEq, Prod.mk.injEq] at hok
          exact hok.2.2.symm

/-- C10 witness. -/
theorem dirty_flag_monotone_witness :
    (∀ st1 b,
      setitem castNone { st0 with changed := true } keyK intM = .ok (st1, b) →
      st1.changed = true) ∧
    (∀ e st1,
      setitem castNone { st0 with changed := true } keyK intM = .error (e, st1) →
      st1.changed = true) :=
  dirty_flag_monotone.1 castNone { st0 with changed := true } keyK intM rfl

end Autodict
